import Mathlib

/-!
# OVNDBCluster API type (api/v1beta1/ovndbcluster_types.go)

A shallow embedding of the `OVNDBCluster` schema and of its accessor methods,
together with the parts of the imported `condition` package
(lib-common/modules/common/condition) that the accessors call. The Status
Aggregator of the controller, which writes the Ready condition the accessor
`IsReady` reads, is not part of this source file and is modelled from the
specification.

Conventions of the embedding:

* a Go `string` is a `String`, an `int32` an `Int`, a `*int32` an `Option Int`;
* a Go `error` is an `Option String`: `none` is the `nil` error and `some m`
  is an error whose message is `m`;
* `fmt.Errorf` with a single `%s` verb applied to a string is the format text
  with the argument spliced in place of the verb;
* a Go slice is the list of its visible elements together with the contents
  of the spare slots of its backing array (the slots between `len` and `cap`).
-/

set_option autoImplicit false

namespace OVN

/-! ## Constants -/

/-- NBDBType - Northbound database type -/
def NBDBType : String := "NB"

/-- SBDBType - Southbound database type -/
def SBDBType : String := "SB"

/-! ## The imported condition package: data -/

namespace condition

/-- Condition record of the condition package (`Type_` is the Go field `Type`,
a reserved word here). `Type_`, `Status`, `Severity`
and `Reason` are all string types in Go; `LastTransitionTime` is a time, kept
here as seconds, the zero time being `0`. -/
structure Condition where
  Type_ : String
  Status : String
  Severity : String
  LastTransitionTime : Nat
  Reason : String
  Message : String
  deriving DecidableEq, Repr, Inhabited

/-- Conditions is the Go slice type `[]Condition`: `elems` are the elements
`0 .. len-1` the holder of the slice sees, `spare` the contents of the slots
`len .. cap-1` of the backing array. The nil slice has both lists empty. -/
structure Conditions where
  elems : List Condition
  spare : List Condition
  deriving DecidableEq, Repr, Inhabited

/-- ReadyCondition is the type of the overall readiness condition -/
def ReadyCondition : String := "Ready"

/-- ConditionTrue of corev1.ConditionStatus -/
def ConditionTrue : String := "True"

/-- ConditionFalse of corev1.ConditionStatus -/
def ConditionFalse : String := "False"

/-- ConditionUnknown of corev1.ConditionStatus -/
def ConditionUnknown : String := "Unknown"

end condition

/-! ## Schema -/

/-- OVNDBClusterDebug: debug switches of the cluster -/
structure OVNDBClusterDebug where
  Service : Bool
  deriving DecidableEq, Repr, Inhabited

/-- ResourceRequirements of corev1, as two quantity tables -/
structure ResourceRequirements where
  Limits : List (String × String)
  Requests : List (String × String)
  deriving DecidableEq, Repr, Inhabited

/-- OVNDBClusterSpec defines the desired state of OVNDBCluster -/
structure OVNDBClusterSpec where
  ContainerImage : String
  DBType : String
  Replicas : Option Int
  NodeSelector : List (String × String)
  LogLevel : String
  Debug : OVNDBClusterDebug
  ElectionTimer : Int
  InactivityProbe : Int
  ProbeIntervalToActive : Int
  Resources : ResourceRequirements
  StorageClass : String
  StorageRequest : String
  NetworkAttachment : String
  deriving DecidableEq, Repr, Inhabited

/-- OVNDBClusterStatus defines the observed state of OVNDBCluster -/
structure OVNDBClusterStatus where
  ReadyCount : Int
  Hash : List (String × String)
  Conditions : condition.Conditions
  RaftAddress : String
  DBAddress : String
  InternalDBAddress : String
  NetworkAttachments : List (String × List String)
  deriving DecidableEq, Repr, Inhabited

/-- OVNDBCluster is the Schema for the ovndbclusters API. `Name` and
`Namespace` are the fields of the embedded ObjectMeta the methods read. -/
structure OVNDBCluster where
  Name : String
  Namespace : String
  Spec : OVNDBClusterSpec
  Status : OVNDBClusterStatus
  deriving DecidableEq, Repr, Inhabited

/-! ## The fmt package: the verbs the source uses -/

namespace fmt

/-- The formatting loop of fmt.Sprintf over the characters of the format text,
for string operands: `%s` prints the next operand (or the runtime's
missing-operand marker when none is left), `%%` prints a percent sign, any
other character is copied. -/
def doPrintf : List Char → List String → List Char
  | [], _ => []
  | '%' :: 's' :: rest, a :: operands => a.data ++ doPrintf rest operands
  | '%' :: 's' :: rest, [] => "%!s(MISSING)".data ++ doPrintf rest []
  | '%' :: '%' :: rest, operands => '%' :: doPrintf rest operands
  | c :: rest, operands => c :: doPrintf rest operands

/-- Errorf formats its operands and returns the text as the message of a new
error value. -/
def Errorf (format : String) (operands : List String) : String :=
  String.mk (doPrintf format.data operands)

end fmt

/-! ## The imported condition package: functions -/

namespace condition

/-- The loop of `Conditions.Get`: the first element whose type is `t`. -/
def getLoop (t : String) : List Condition → Option Condition
  | [] => none
  | c :: rest => if c.Type_ = t then some c else getLoop t rest

/-- Get returns the condition with the given type, if the condition does not
exist, it returns nil. -/
def Conditions.Get (conditions : Conditions) (t : String) : Option Condition :=
  getLoop t conditions.elems

/-- IsTrue is true if the condition with the given type is True, otherwise it
returns false, also when the condition does not exist. -/
def Conditions.IsTrue (conditions : Conditions) (t : String) : Bool :=
  match conditions.Get t with
  | some c => decide (c.Status = ConditionTrue)
  | none => false

/-- hasSameState returns true if a condition has the same state of another;
state is the union of Type, Status, Reason, Severity and Message (it excludes
LastTransitionTime). -/
def hasSameState (i j : Condition) : Bool :=
  decide (i.Type_ = j.Type_) && decide (i.Status = j.Status) &&
    decide (i.Reason = j.Reason) && decide (i.Severity = j.Severity) &&
    decide (i.Message = j.Message)

/-- The transition time a condition is stored with: the clock reading when
the condition carries the zero time, its own time otherwise. -/
def stampIfZero (now : Nat) (c : Condition) : Condition :=
  if c.LastTransitionTime = 0 then { c with LastTransitionTime := now } else c

/-- The loop of `Conditions.Set` over the visible elements. `none`: no element
has the type of `c`. `some (elems, c1)`: an element of that type exists; `elems`
is the backing array's visible part after the loop (the element overwritten
with `c` when its state differs, `c` keeping a transition time it already
carries and taking the clock reading when it carries none; the element
untouched when the state is the same) and `c1` is `c` as the loop leaves it. -/
def setLoop (now : Nat) (c : Condition) : List Condition → Option (List Condition × Condition)
  | [] => none
  | existingCondition :: rest =>
    if existingCondition.Type_ = c.Type_ then
      if hasSameState existingCondition c = false then
        some (stampIfZero now c :: rest, stampIfZero now c)
      else
        some (existingCondition :: rest,
          { c with LastTransitionTime := existingCondition.LastTransitionTime })
    else
      match setLoop now c rest with
      | none => none
      | some (rest1, c1) => some (existingCondition :: rest1, c1)

/-- The built-in `append(s, x)` for one element: with a spare slot the element
is written into the backing array behind `s`; without one a fresh array is
allocated and the elements copied. The flag tells whether the array is fresh.
`grow n` is the number of spare slots the runtime gives a fresh array that
holds `n` elements before the append. -/
def goAppend (grow : Nat → Nat) (s : Conditions) (x : Condition) : Conditions × Bool :=
  match s.spare with
  | [] => (⟨s.elems ++ [x], List.replicate (grow s.elems.length) default⟩, true)
  | _ :: rest => (⟨s.elems ++ [x], rest⟩, false)

/-- Outcome of a call of `Conditions.Set` through a pointer to a slice: the
slice the pointer holds afterwards, and whether that slice lives in a backing
array allocated during the call. -/
structure SetOutcome where
  slice : Conditions
  fresh : Bool
  deriving DecidableEq, Repr, Inhabited

/-- Set - sets new condition on the conditions list. If a condition with the
same type already exists in the list it is overwritten, else the condition is
appended; the list is then sorted in place. A nil condition leaves the list as
it is. `now` is the clock reading, `grow` the allocation policy of append and
`sortSlice` the rearrangement `sort.Slice` performs with the ordering of the
package. -/
def Conditions.Set (now : Nat) (grow : Nat → Nat)
    (sortSlice : List Condition → List Condition)
    (conditions : Conditions) (c : Option Condition) : SetOutcome :=
  match c with
  | none => ⟨conditions, false⟩
  | some c =>
    let afterLoop : Conditions × Bool :=
      match setLoop now c conditions.elems with
      | some (elems1, _) => (⟨elems1, conditions.spare⟩, false)
      | none =>
        goAppend grow conditions (stampIfZero now c)
    ⟨⟨sortSlice afterLoop.1.elems, afterLoop.1.spare⟩, afterLoop.2⟩

end condition

/-! ## Methods of OVNDBCluster -/

/-- IsReady - returns true if service is ready to serve requests -/
def IsReady (inst : OVNDBCluster) : Bool :=
  inst.Status.Conditions.IsTrue condition.ReadyCondition

/-- RbacConditionsSet - set the conditions for the rbac object.

The method has a value receiver: it runs `Set` on a copy of the cluster. The
copy has its own slice header for `Status.Conditions`, which points at the
backing array of the caller's slice. The result is the cluster the caller holds
after the call: its slice header is what it was (same length and capacity), and
it reads the backing array as `Set` left it, unless `Set` moved the copy to a
fresh array, in which case the caller's array was never written. -/
def RbacConditionsSet (now : Nat) (grow : Nat → Nat)
    (sortSlice : List condition.Condition → List condition.Condition)
    (inst : OVNDBCluster) (c : Option condition.Condition) : OVNDBCluster :=
  let out := inst.Status.Conditions.Set now grow sortSlice c
  if out.fresh then inst
  else
    { inst with
      Status :=
        { inst.Status with
          Conditions :=
            ⟨(out.slice.elems ++ out.slice.spare).take inst.Status.Conditions.elems.length,
             (out.slice.elems ++ out.slice.spare).drop inst.Status.Conditions.elems.length⟩ } }

/-- RbacNamespace - return the namespace -/
def RbacNamespace (inst : OVNDBCluster) : String :=
  inst.Namespace

/-- RbacResourceName - return the name to be used for rbac objects
(serviceaccount, role, rolebinding) -/
def RbacResourceName (inst : OVNDBCluster) : String :=
  "ovncluster-" ++ inst.Name

/-- GetInternalEndpoint: the internal address, or an error while it is unset -/
def GetInternalEndpoint (inst : OVNDBCluster) : String × Option String :=
  if inst.Status.InternalDBAddress = "" then
    ("", some (fmt.Errorf "internal DBEndpoint not ready yet for %s" [inst.Spec.DBType]))
  else
    (inst.Status.InternalDBAddress, none)

/-- GetExternalEndpoint: the external address, or an error while it is unset -/
def GetExternalEndpoint (inst : OVNDBCluster) : String × Option String :=
  if inst.Status.DBAddress = "" then
    ("", some (fmt.Errorf "external DBEndpoint not ready yet for %s" [inst.Spec.DBType]))
  else
    (inst.Status.DBAddress, none)

/-! ## Validation of Spec.DBType

The schema marker `+kubebuilder:validation:Pattern="^NB|SB$"` makes the API
server check the field with the regular-expression package: the value passes
when the pattern matches somewhere in it. What follows is the part of the
package the pattern needs: literals, the two text anchors, concatenation and
alternation, where alternation binds weaker than concatenation. -/

namespace regexp

/-- Parsed regular expression (the operators of the pattern language that the
DBType pattern uses). -/
inductive Regexp where
  | OpEmptyMatch
  | OpLiteral (c : Char)
  | OpBeginText
  | OpEndText
  | OpConcat (a b : Regexp)
  | OpAlternate (a b : Regexp)
  deriving DecidableEq, Repr, Inhabited

/-- The pieces of a pattern between its vertical bars. -/
def splitBars : List Char → List (List Char)
  | [] => [[]]
  | c :: rest =>
    match splitBars rest with
    | [] => [[]]
    | piece :: pieces => if c = '|' then [] :: piece :: pieces else (c :: piece) :: pieces

/-- Parse of one alternative: a sequence of anchors and letters or digits. Any
other character is outside the supported pattern language and is refused. -/
def parseConcat : List Char → Option Regexp
  | [] => some Regexp.OpEmptyMatch
  | c :: rest =>
    match parseConcat rest with
    | none => none
    | some r =>
      if c = '^' then some (Regexp.OpConcat Regexp.OpBeginText r)
      else if c = '$' then some (Regexp.OpConcat Regexp.OpEndText r)
      else if c.isAlphanum then some (Regexp.OpConcat (Regexp.OpLiteral c) r)
      else none

/-- Parse of the alternatives of a pattern, joined by alternation. -/
def parseAlternation : List (List Char) → Option Regexp
  | [] => none
  | [p] => parseConcat p
  | p :: q :: ps =>
    match parseConcat p, parseAlternation (q :: ps) with
    | some a, some b => some (Regexp.OpAlternate a b)
    | _, _ => none

/-- Compile parses a regular expression; `none` is a parse error. -/
def Compile (expr : String) : Option Regexp :=
  parseAlternation (splitBars expr.data)

/-- All the positions at which a match of `re` that starts at position `i` of
`text` can end. `^` holds only at position 0 and `$` only at the end of the
text (no multi-line mode). -/
def matchFrom (text : List Char) : Regexp → Nat → List Nat
  | Regexp.OpEmptyMatch, i => [i]
  | Regexp.OpLiteral c, i => if text.get? i = some c then [i + 1] else []
  | Regexp.OpBeginText, i => if i = 0 then [i] else []
  | Regexp.OpEndText, i => if i = text.length then [i] else []
  | Regexp.OpConcat a b, i => (matchFrom text a i).flatMap (matchFrom text b)
  | Regexp.OpAlternate a b, i => matchFrom text a i ++ matchFrom text b i

/-- MatchString of a compiled expression reports whether the string contains
any match of the expression: a match may start at any position. -/
def Regexp.MatchString (re : Regexp) (s : String) : Bool :=
  (List.range (s.data.length + 1)).any fun i => !(matchFrom s.data re i).isEmpty

/-- MatchString reports whether the string contains any match of the pattern;
`none` when the pattern does not compile. -/
def MatchString (pattern : String) (s : String) : Option Bool :=
  match Compile pattern with
  | none => none
  | some re => some (re.MatchString s)

end regexp

/-- The value of the `+kubebuilder:validation:Pattern` marker on Spec.DBType. -/
def DBTypePattern : String := "^NB|SB$"

/-- The pattern validation of Spec.DBType: the value is admitted when the
pattern compiles and matches it. -/
def validateDBType (dbType : String) : Bool :=
  regexp.MatchString DBTypePattern dbType = some true

/-! ## The readiness rule of the specification -/

/-- The specification's rule for readiness, in its words: the ready count
equals the desired replicas, the replicas are more than zero, and the endpoint
addresses are resolved (non-empty). -/
def specFullyUp (inst : OVNDBCluster) : Bool :=
  match inst.Spec.Replicas with
  | none => false
  | some replicas =>
    decide (inst.Status.ReadyCount = replicas) && decide (0 < replicas) &&
      decide (inst.Status.DBAddress ≠ "") && decide (inst.Status.InternalDBAddress ≠ "")

/-- Modelled from the spec: the first step of the Status Aggregator (section
4.5), a part of the controller that is not in
api/v1beta1/ovndbcluster_types.go: `readyCount` is the count of members whose
readiness probe passes. `probes` are the readiness probes of the members. -/
def countReady (probes : List Bool) (inst : OVNDBCluster) : OVNDBCluster :=
  { inst with Status := { inst.Status with ReadyCount := Int.ofNat (probes.count true) } }

/-- Modelled from the spec: the Ready condition the Status Aggregator (section
4.5, not in api/v1beta1/ovndbcluster_types.go) computes for a cluster whose
ready count is up to date: True if and only if `readyCount == replicas` and
`replicas > 0` and the endpoints are resolved; a cluster scaled to zero
replicas is not reported as Ready=False (status Unknown, reason ScaledToZero);
Ready=False otherwise, with `reason` the reason of the first unmet condition as
the other components found it. `now` is the clock reading. -/
def readyConditionOf (reason : String) (now : Nat) (inst : OVNDBCluster) :
    condition.Condition :=
  if specFullyUp inst then
    { Type_ := condition.ReadyCondition, Status := condition.ConditionTrue, Severity := "",
      LastTransitionTime := now, Reason := "Ready", Message := "" }
  else if inst.Spec.Replicas = some 0 then
    { Type_ := condition.ReadyCondition, Status := condition.ConditionUnknown,
      Severity := "", LastTransitionTime := now, Reason := "ScaledToZero", Message := "" }
  else
    { Type_ := condition.ReadyCondition, Status := condition.ConditionFalse, Severity := "",
      LastTransitionTime := now, Reason := reason, Message := "" }

/-- Modelled from the spec: the Status Aggregator (section 4.5), a part of the
controller that is not in api/v1beta1/ovndbcluster_types.go. It computes
`readyCount` and the Ready condition and records them in the status. The
invariant of the data model, that exactly one condition of type Ready exists,
is kept by removing the Ready conditions of the old list; the Ready condition
is stored first, where the print columns of the schema read the status. -/
def aggregateStatus (probes : List Bool) (reason : String) (now : Nat)
    (inst : OVNDBCluster) : OVNDBCluster :=
  { countReady probes inst with
    Status :=
      { (countReady probes inst).Status with
        Conditions :=
          { elems :=
              readyConditionOf reason now (countReady probes inst) ::
                (countReady probes inst).Status.Conditions.elems.filter
                  (fun c => decide (c.Type_ ≠ condition.ReadyCondition)),
            spare := [] } } }

/-! ## Sample objects -/

/-- A condition with the given type and status and nothing else set. -/
def sampleCondition (t status : String) : condition.Condition :=
  { Type_ := t, Status := status, Severity := "", LastTransitionTime := 0,
    Reason := "", Message := "" }

/-- A cluster with the given name, database type, replica figures, addresses
and visible conditions (no spare capacity); the other fields hold their zero
values. -/
def sampleCluster (name dbType : String) (replicas : Option Int) (readyCount : Int)
    (dbAddress internalDBAddress : String) (conds : List condition.Condition) :
    OVNDBCluster :=
  { Name := name, Namespace := "openstack",
    Spec :=
      { ContainerImage := "", DBType := dbType, Replicas := replicas, NodeSelector := [],
        LogLevel := "", Debug := { Service := false }, ElectionTimer := 0,
        InactivityProbe := 0, ProbeIntervalToActive := 0,
        Resources := { Limits := [], Requests := [] }, StorageClass := "",
        StorageRequest := "", NetworkAttachment := "" },
    Status :=
      { ReadyCount := readyCount, Hash := [], Conditions := { elems := conds, spare := [] },
        RaftAddress := "", DBAddress := dbAddress, InternalDBAddress := internalDBAddress,
        NetworkAttachments := [] } }

/-! ## Facts about the helpers -/

theorem Errorf_internal (d : String) :
    fmt.Errorf "internal DBEndpoint not ready yet for %s" [d]
      = "internal DBEndpoint not ready yet for " ++ d := by
  apply String.ext
  simp [fmt.Errorf, fmt.doPrintf]

theorem Errorf_external (d : String) :
    fmt.Errorf "external DBEndpoint not ready yet for %s" [d]
      = "external DBEndpoint not ready yet for " ++ d := by
  apply String.ext
  simp [fmt.Errorf, fmt.doPrintf]

theorem string_append_left_cancel (p a b : String) (h : p ++ a = p ++ b) : a = b := by
  apply String.ext
  have h2 : (p ++ a).data = (p ++ b).data := by rw [h]
  simpa [String.data_append] using h2

/-! ## Endpoint accessors -/

/-- C1: GetInternalEndpoint returns a non-nil error exactly when
Status.InternalDBAddress is the empty string; with a non-empty field it returns
that field and a nil error; when it fails the returned address is empty. -/
theorem GetInternalEndpoint_contract (inst : OVNDBCluster) :
    ((GetInternalEndpoint inst).2 ≠ none ↔ inst.Status.InternalDBAddress = "") ∧
    (inst.Status.InternalDBAddress ≠ "" →
      GetInternalEndpoint inst = (inst.Status.InternalDBAddress, none)) ∧
    ((GetInternalEndpoint inst).2 ≠ none → (GetInternalEndpoint inst).1 = "") := by
  unfold GetInternalEndpoint
  by_cases h : inst.Status.InternalDBAddress = "" <;> simp [h]

theorem GetInternalEndpoint_contract_witness :
    GetInternalEndpoint (sampleCluster "ovndbcluster-nb" "NB" (some 3) 3 "" "tcp:10.0.0.1:6641" [])
      = ("tcp:10.0.0.1:6641", none) :=
  (GetInternalEndpoint_contract
    (sampleCluster "ovndbcluster-nb" "NB" (some 3) 3 "" "tcp:10.0.0.1:6641" [])).2.1 (by decide)

/-- C2: GetExternalEndpoint returns a non-nil error exactly when
Status.DBAddress is the empty string; with a non-empty field it returns that
field and a nil error; when it fails the returned address is empty. -/
theorem GetExternalEndpoint_contract (inst : OVNDBCluster) :
    ((GetExternalEndpoint inst).2 ≠ none ↔ inst.Status.DBAddress = "") ∧
    (inst.Status.DBAddress ≠ "" →
      GetExternalEndpoint inst = (inst.Status.DBAddress, none)) ∧
    ((GetExternalEndpoint inst).2 ≠ none → (GetExternalEndpoint inst).1 = "") := by
  unfold GetExternalEndpoint
  by_cases h : inst.Status.DBAddress = "" <;> simp [h]

theorem GetExternalEndpoint_contract_witness :
    GetExternalEndpoint (sampleCluster "ovndbcluster-sb" "SB" (some 1) 1 "tcp:172.17.0.80:6642" "" [])
      = ("tcp:172.17.0.80:6642", none) :=
  (GetExternalEndpoint_contract
    (sampleCluster "ovndbcluster-sb" "SB" (some 1) 1 "tcp:172.17.0.80:6642" "" [])).2.1
    (by decide)

/-- C3: when an endpoint accessor fails, the error message is the fixed text
"internal DBEndpoint not ready yet for " (respectively "external DBEndpoint not
ready yet for ") followed by Spec.DBType; so with DBType "SB" the message
contains "SB". -/
theorem endpoint_error_names_DBType (inst : OVNDBCluster) :
    (inst.Status.InternalDBAddress = "" →
      (GetInternalEndpoint inst).2
        = some ("internal DBEndpoint not ready yet for " ++ inst.Spec.DBType)) ∧
    (inst.Status.DBAddress = "" →
      (GetExternalEndpoint inst).2
        = some ("external DBEndpoint not ready yet for " ++ inst.Spec.DBType)) ∧
    (inst.Spec.DBType = SBDBType → inst.Status.InternalDBAddress = "" →
      ∃ before after, (GetInternalEndpoint inst).2 = some (before ++ "SB" ++ after)) ∧
    (inst.Spec.DBType = SBDBType → inst.Status.DBAddress = "" →
      ∃ before after, (GetExternalEndpoint inst).2 = some (before ++ "SB" ++ after)) := by
  refine ⟨?_, ?_, ?_, ?_⟩
  · intro h
    simp [GetInternalEndpoint, h, Errorf_internal]
  · intro h
    simp [GetExternalEndpoint, h, Errorf_external]
  · intro hd h
    refine ⟨"internal DBEndpoint not ready yet for ", "", ?_⟩
    simp [GetInternalEndpoint, h, Errorf_internal, hd, SBDBType]
  · intro hd h
    refine ⟨"external DBEndpoint not ready yet for ", "", ?_⟩
    simp [GetExternalEndpoint, h, Errorf_external, hd, SBDBType]

theorem endpoint_error_names_DBType_witness :
    (GetExternalEndpoint
        (sampleCluster "ovndbcluster-sb" "SB" (some 1) 1 "" "tcp:10.0.0.1:6642" [])).2
      = some ("external DBEndpoint not ready yet for " ++ "SB") :=
  (endpoint_error_names_DBType
    (sampleCluster "ovndbcluster-sb" "SB" (some 1) 1 "" "tcp:10.0.0.1:6642" [])).2.1 (by decide)

/-- C4: with Status.DBAddress empty and Status.InternalDBAddress non-empty,
GetExternalEndpoint fails with an empty address (no fall-back to the internal
address) while GetInternalEndpoint returns Status.InternalDBAddress and no
error. -/
theorem endpoints_independent (inst : OVNDBCluster)
    (hext : inst.Status.DBAddress = "") (hint : inst.Status.InternalDBAddress ≠ "") :
    (GetExternalEndpoint inst).2 ≠ none ∧
    (GetExternalEndpoint inst).1 = "" ∧
    (GetExternalEndpoint inst).1 ≠ inst.Status.InternalDBAddress ∧
    GetInternalEndpoint inst = (inst.Status.InternalDBAddress, none) := by
  refine ⟨?_, ?_, ?_, ?_⟩
  · simp [GetExternalEndpoint, hext]
  · simp [GetExternalEndpoint, hext]
  · simp only [GetExternalEndpoint, hext, if_true]
    exact fun h => hint h.symm
  · simp [GetInternalEndpoint, hint]

theorem endpoints_independent_witness :
    (GetExternalEndpoint
        (sampleCluster "ovndbcluster-sb" "SB" (some 1) 1 "" "tcp:10.0.0.1:6642" [])).2 ≠ none ∧
    (GetExternalEndpoint
        (sampleCluster "ovndbcluster-sb" "SB" (some 1) 1 "" "tcp:10.0.0.1:6642" [])).1 = "" ∧
    (GetExternalEndpoint
        (sampleCluster "ovndbcluster-sb" "SB" (some 1) 1 "" "tcp:10.0.0.1:6642" [])).1
      ≠ "tcp:10.0.0.1:6642" ∧
    GetInternalEndpoint
        (sampleCluster "ovndbcluster-sb" "SB" (some 1) 1 "" "tcp:10.0.0.1:6642" [])
      = ("tcp:10.0.0.1:6642", none) :=
  endpoints_independent
    (sampleCluster "ovndbcluster-sb" "SB" (some 1) 1 "" "tcp:10.0.0.1:6642" [])
    (by decide) (by decide)

/-! ## RBAC resource name -/

/-- C5: RbacResourceName is "ovncluster-" followed by the Name of the cluster,
and two clusters with the same Name have the same resource name whatever their
other fields hold. -/
theorem RbacResourceName_eq (inst : OVNDBCluster) :
    RbacResourceName inst = "ovncluster-" ++ inst.Name ∧
    ∀ other : OVNDBCluster, other.Name = inst.Name →
      RbacResourceName other = RbacResourceName inst := by
  refine ⟨rfl, ?_⟩
  intro other h
  simp [RbacResourceName, h]

theorem RbacResourceName_eq_witness :
    RbacResourceName (sampleCluster "ovndbcluster-nb" "SB" none 7 "a" "b"
        [sampleCondition "Ready" "True"])
      = RbacResourceName (sampleCluster "ovndbcluster-nb" "NB" (some 3) 3 "" "" []) :=
  (RbacResourceName_eq (sampleCluster "ovndbcluster-nb" "NB" (some 3) 3 "" "" [])).2
    (sampleCluster "ovndbcluster-nb" "SB" none 7 "a" "b" [sampleCondition "Ready" "True"])
    (by decide)

/-- C10: RbacResourceName is injective in the cluster name: equal resource
names come from equal Names. -/
theorem RbacResourceName_injective (a b : OVNDBCluster)
    (h : RbacResourceName a = RbacResourceName b) : a.Name = b.Name :=
  string_append_left_cancel "ovncluster-" a.Name b.Name h

theorem RbacResourceName_injective_witness :
    (sampleCluster "ovndbcluster-nb" "SB" none 7 "a" "b" []).Name
      = (sampleCluster "ovndbcluster-nb" "NB" (some 3) 3 "" "" []).Name :=
  RbacResourceName_injective
    (sampleCluster "ovndbcluster-nb" "SB" none 7 "a" "b" [])
    (sampleCluster "ovndbcluster-nb" "NB" (some 3) 3 "" "" []) (by decide)

/-! ## Readiness -/

theorem getLoop_eq_some_iff (t : String) (l : List condition.Condition)
    (x : condition.Condition) :
    condition.getLoop t l = some x ↔
      ∃ before after, l = before ++ x :: after ∧ (∀ y ∈ before, y.Type_ ≠ t) ∧ x.Type_ = t := by
  induction l with
  | nil => simp [condition.getLoop]
  | cons a rest ih =>
    unfold condition.getLoop
    by_cases h : a.Type_ = t
    · simp only [h, if_true, Option.some.injEq]
      constructor
      · intro hax
        subst hax
        exact ⟨[], rest, rfl, by simp, h⟩
      · rintro ⟨before, after, hl, hb, _⟩
        cases before with
        | nil =>
          simp only [List.nil_append, List.cons.injEq] at hl
          exact hl.1
        | cons b before1 =>
          simp only [List.cons_append, List.cons.injEq] at hl
          exact absurd (hl.1 ▸ h) (hb b (by simp))
    · simp only [h, if_false, ih]
      constructor
      · rintro ⟨before, after, hl, hb, hx⟩
        refine ⟨a :: before, after, by simp [hl], ?_, hx⟩
        intro y hy
        rcases List.mem_cons.1 hy with hya | hyb
        · exact hya ▸ h
        · exact hb y hyb
      · rintro ⟨before, after, hl, hb, hx⟩
        cases before with
        | nil =>
          simp only [List.nil_append, List.cons.injEq] at hl
          exact absurd (hl.1 ▸ hx) h
        | cons b before1 =>
          simp only [List.cons_append, List.cons.injEq] at hl
          exact ⟨before1, after, hl.2, fun y hy => hb y (by simp [hy]), hx⟩

theorem IsReady_eq_true_iff (inst : OVNDBCluster) :
    IsReady inst = true ↔
      ∃ before x after, inst.Status.Conditions.elems = before ++ x :: after ∧
        (∀ y ∈ before, y.Type_ ≠ condition.ReadyCondition) ∧
        x.Type_ = condition.ReadyCondition ∧ x.Status = condition.ConditionTrue := by
  unfold IsReady condition.Conditions.IsTrue condition.Conditions.Get
  constructor
  · intro h
    cases hg : condition.getLoop condition.ReadyCondition inst.Status.Conditions.elems with
    | none => simp [hg] at h
    | some x =>
      simp only [hg, decide_eq_true_eq] at h
      obtain ⟨before, after, hl, hb, hx⟩ := (getLoop_eq_some_iff _ _ _).1 hg
      exact ⟨before, x, after, hl, hb, hx, h⟩
  · rintro ⟨before, x, after, hl, hb, hx, hs⟩
    have hg := (getLoop_eq_some_iff condition.ReadyCondition _ x).2 ⟨before, after, hl, hb, hx⟩
    simp [hg, hs]

/-- C6 (as amended): IsReady returns true exactly when the first condition of
type "Ready" in Status.Conditions has status True. When all conditions of type
"Ready" in the list carry one status (in particular when there is at most one)
this is the same as the list containing a Ready condition with status True.
IsReady returns false for an empty list and when the first Ready condition has
another status, such as False or Unknown. -/
theorem IsReady_iff_first_Ready (inst : OVNDBCluster) :
    (IsReady inst = true ↔
      ∃ before x after, inst.Status.Conditions.elems = before ++ x :: after ∧
        (∀ y ∈ before, y.Type_ ≠ condition.ReadyCondition) ∧
        x.Type_ = condition.ReadyCondition ∧ x.Status = condition.ConditionTrue) ∧
    ((∀ x ∈ inst.Status.Conditions.elems, ∀ y ∈ inst.Status.Conditions.elems,
        x.Type_ = condition.ReadyCondition → y.Type_ = condition.ReadyCondition →
        x.Status = y.Status) →
      (IsReady inst = true ↔
        ∃ x ∈ inst.Status.Conditions.elems,
          x.Type_ = condition.ReadyCondition ∧ x.Status = condition.ConditionTrue)) ∧
    (inst.Status.Conditions.elems = [] → IsReady inst = false) ∧
    (∀ before x after, inst.Status.Conditions.elems = before ++ x :: after →
      (∀ y ∈ before, y.Type_ ≠ condition.ReadyCondition) →
      x.Type_ = condition.ReadyCondition → x.Status ≠ condition.ConditionTrue →
      IsReady inst = false) := by
  refine ⟨IsReady_eq_true_iff inst, ?_, ?_, ?_⟩
  · intro huniq
    rw [IsReady_eq_true_iff]
    constructor
    · rintro ⟨before, x, after, hl, _, hx, hs⟩
      exact ⟨x, by simp [hl], hx, hs⟩
    · rintro ⟨x, hmem, hx, hs⟩
      cases hg : condition.getLoop condition.ReadyCondition inst.Status.Conditions.elems with
      | none =>
        have key : ∀ (l : List condition.Condition), x ∈ l →
            condition.getLoop condition.ReadyCondition l ≠ none := by
          intro l
          induction l with
          | nil => simp
          | cons a rest ih =>
            intro hm
            unfold condition.getLoop
            by_cases ha : a.Type_ = condition.ReadyCondition
            · simp [ha]
            · simp only [ha, if_false]
              rcases List.mem_cons.1 hm with h1 | h2
              · exact absurd (h1 ▸ hx) ha
              · exact ih h2
        exact absurd hg (key _ hmem)
      | some y =>
        obtain ⟨before, after, hl, hb, hy⟩ := (getLoop_eq_some_iff _ _ _).1 hg
        refine ⟨before, y, after, hl, hb, hy, ?_⟩
        rw [← hs]
        exact huniq y (by simp [hl]) x hmem hy hx
  · intro h
    simp [IsReady, condition.Conditions.IsTrue, condition.Conditions.Get, h, condition.getLoop]
  · intro before x after hl hb hx hs
    have hg := (getLoop_eq_some_iff condition.ReadyCondition _ x).2 ⟨before, after, hl, hb, hx⟩
    simp [IsReady, condition.Conditions.IsTrue, condition.Conditions.Get, hg, hs]

theorem IsReady_iff_first_Ready_witness :
    IsReady (sampleCluster "ovndbcluster-nb" "NB" (some 3) 3 "" "" []) = false ∧
    IsReady (sampleCluster "ovndbcluster-nb" "NB" (some 3) 3 "" ""
      [sampleCondition "Ready" "Unknown", sampleCondition "ServiceAccountReady" "True"])
      = false :=
  ⟨(IsReady_iff_first_Ready (sampleCluster "ovndbcluster-nb" "NB" (some 3) 3 "" "" [])).2.2.1
      (by decide),
   (IsReady_iff_first_Ready (sampleCluster "ovndbcluster-nb" "NB" (some 3) 3 "" ""
      [sampleCondition "Ready" "Unknown", sampleCondition "ServiceAccountReady" "True"])).2.2.2
      [] (sampleCondition "Ready" "Unknown") [sampleCondition "ServiceAccountReady" "True"]
      (by decide) (by decide) (by decide) (by decide)⟩

/-- C6 (as stated) fails: a list that holds a Ready condition with status False
followed by a Ready condition with status True contains a Ready condition whose
status is True, yet IsReady returns false. -/
theorem IsReady_not_iff_contains :
    ¬ (IsReady (sampleCluster "ovndbcluster-nb" "NB" (some 3) 3 "" ""
          [sampleCondition "Ready" "False", sampleCondition "Ready" "True"]) = true ↔
        ∃ x ∈ (sampleCluster "ovndbcluster-nb" "NB" (some 3) 3 "" ""
          [sampleCondition "Ready" "False", sampleCondition "Ready" "True"]).Status.Conditions.elems,
          x.Type_ = condition.ReadyCondition ∧ x.Status = condition.ConditionTrue) := by
  intro h
  have hfalse : IsReady (sampleCluster "ovndbcluster-nb" "NB" (some 3) 3 "" ""
      [sampleCondition "Ready" "False", sampleCondition "Ready" "True"]) = false := by decide
  have htrue := h.2 ⟨sampleCondition "Ready" "True", by decide, by decide, by decide⟩
  rw [hfalse] at htrue
  exact Bool.noConfusion htrue

theorem readyConditionOf_type (reason : String) (now : Nat) (inst : OVNDBCluster) :
    (readyConditionOf reason now inst).Type_ = condition.ReadyCondition := by
  unfold readyConditionOf
  split
  · rfl
  · split <;> rfl

theorem readyConditionOf_status (reason : String) (now : Nat) (inst : OVNDBCluster) :
    (readyConditionOf reason now inst).Status = condition.ConditionTrue ↔
      specFullyUp inst = true := by
  unfold readyConditionOf
  by_cases hf : specFullyUp inst = true
  · simp [hf]
  · by_cases hz : inst.Spec.Replicas = some 0
    · simp [hf, hz, condition.ConditionTrue, condition.ConditionUnknown]
    · simp [hf, hz, condition.ConditionTrue, condition.ConditionFalse]

/-- C7 (as amended): on a status written by the Status Aggregator the cluster
is reported ready exactly when it is fully up. For every cluster, every set of
member probes, reason and clock reading, after the aggregator has written the
status: IsReady returns true if and only if Status.ReadyCount equals the
desired replicas, the replicas are more than zero and both endpoint address
fields are non-empty; that is the case exactly when the count of passing probes
equals the desired replicas, these are more than zero and both addresses of the
cluster are non-empty; and the list holds exactly one condition of type
Ready. -/
theorem IsReady_after_aggregateStatus (probes : List Bool) (reason : String) (now : Nat)
    (inst : OVNDBCluster) :
    (IsReady (aggregateStatus probes reason now inst) = true ↔
      specFullyUp (aggregateStatus probes reason now inst) = true) ∧
    (specFullyUp (aggregateStatus probes reason now inst) = true ↔
      ∃ replicas, inst.Spec.Replicas = some replicas ∧
        Int.ofNat (probes.count true) = replicas ∧ 0 < replicas ∧
        inst.Status.DBAddress ≠ "" ∧ inst.Status.InternalDBAddress ≠ "") ∧
    ((aggregateStatus probes reason now inst).Status.Conditions.elems.filter
        (fun c => decide (c.Type_ = condition.ReadyCondition))).length = 1 := by
  have hfull : specFullyUp (aggregateStatus probes reason now inst)
      = specFullyUp (countReady probes inst) := rfl
  refine ⟨?_, ?_, ?_⟩
  · rw [hfull, ← readyConditionOf_status reason now (countReady probes inst)]
    simp [IsReady, condition.Conditions.IsTrue, condition.Conditions.Get, aggregateStatus,
      condition.getLoop, readyConditionOf_type]
  · rw [hfull]
    unfold specFullyUp
    cases hrep : inst.Spec.Replicas with
    | none => simp [countReady, hrep]
    | some r =>
      simp only [countReady, hrep, Bool.and_eq_true, decide_eq_true_eq, Option.some.injEq,
        exists_eq_left']
      constructor
      · rintro ⟨⟨⟨h1, h2⟩, h3⟩, h4⟩
        exact ⟨h1, h2, h3, h4⟩
      · rintro ⟨h1, h2, h3, h4⟩
        exact ⟨⟨⟨h1, h2⟩, h3⟩, h4⟩
  · have hnone : ∀ l : List condition.Condition,
        (l.filter (fun c => decide (c.Type_ ≠ condition.ReadyCondition))).filter
          (fun c => decide (c.Type_ = condition.ReadyCondition)) = [] := by
      intro l
      rw [List.filter_filter]
      simp
    simp [aggregateStatus, List.filter_cons, readyConditionOf_type, hnone]

theorem IsReady_after_aggregateStatus_witness :
    IsReady (aggregateStatus [true, true, true] "ProbesFailing" 100
        (sampleCluster "ovndbcluster-nb" "NB" (some 3) 0 "tcp:172.17.0.80:6641"
          "tcp:10.0.0.1:6641" [sampleCondition "Ready" "False"])) = true ∧
    IsReady (aggregateStatus [true, false, true] "ProbesFailing" 100
        (sampleCluster "ovndbcluster-nb" "NB" (some 3) 3 "tcp:172.17.0.80:6641"
          "tcp:10.0.0.1:6641" [sampleCondition "Ready" "True"])) = false :=
  ⟨(IsReady_after_aggregateStatus [true, true, true] "ProbesFailing" 100
      (sampleCluster "ovndbcluster-nb" "NB" (some 3) 0 "tcp:172.17.0.80:6641"
        "tcp:10.0.0.1:6641" [sampleCondition "Ready" "False"])).1.2 (by decide),
   Bool.eq_false_iff.2 (fun h =>
    absurd ((IsReady_after_aggregateStatus [true, false, true] "ProbesFailing" 100
      (sampleCluster "ovndbcluster-nb" "NB" (some 3) 3 "tcp:172.17.0.80:6641"
        "tcp:10.0.0.1:6641" [sampleCondition "Ready" "True"])).1.1 h) (by decide))⟩

/-- C7 (as stated) fails in both directions: a cluster whose Ready condition is
True is reported ready with ReadyCount 0 of 3 replicas and no address resolved,
and a cluster with ReadyCount 3 of 3 replicas and both addresses resolved is
reported not ready when its condition list is empty. -/
theorem IsReady_not_iff_fully_up :
    (IsReady (sampleCluster "ovndbcluster-nb" "NB" (some 3) 0 "" ""
        [sampleCondition "Ready" "True"]) = true ∧
      specFullyUp (sampleCluster "ovndbcluster-nb" "NB" (some 3) 0 "" ""
        [sampleCondition "Ready" "True"]) = false) ∧
    (IsReady (sampleCluster "ovndbcluster-nb" "NB" (some 3) 3 "tcp:172.17.0.80:6641"
        "tcp:10.0.0.1:6641" []) = false ∧
      specFullyUp (sampleCluster "ovndbcluster-nb" "NB" (some 3) 3 "tcp:172.17.0.80:6641"
        "tcp:10.0.0.1:6641" []) = true) := by
  decide

/-! ## RbacConditionsSet -/

theorem setLoop_eq_none_iff (now : Nat) (c : condition.Condition)
    (l : List condition.Condition) :
    condition.setLoop now c l = none ↔ ∀ e ∈ l, e.Type_ ≠ c.Type_ := by
  induction l with
  | nil => simp [condition.setLoop]
  | cons a rest ih =>
    unfold condition.setLoop
    by_cases h : a.Type_ = c.Type_
    · by_cases hs : condition.hasSameState a c = false <;> simp [h, hs]
    · simp only [h, if_false, List.mem_cons, forall_eq_or_imp, ne_eq, not_false_eq_true,
        true_and]
      rw [← ih]
      cases condition.setLoop now c rest with
      | none => simp
      | some p => simp

theorem hasSameState_eq_true (i j : condition.Condition)
    (h : condition.hasSameState i j = true) :
    i.Status = j.Status ∧ i.Reason = j.Reason ∧ i.Message = j.Message := by
  simp only [condition.hasSameState, Bool.and_eq_true, decide_eq_true_eq] at h
  exact ⟨h.1.1.1.2, h.1.1.2, h.2⟩

theorem setLoop_some_spec (now : Nat) (c : condition.Condition)
    (l elems1 : List condition.Condition) (c1 : condition.Condition)
    (h : condition.setLoop now c l = some (elems1, c1)) :
    elems1.length = l.length ∧
      ∃ e ∈ elems1, e.Type_ = c.Type_ ∧ e.Status = c.Status ∧ e.Reason = c.Reason ∧
        e.Message = c.Message := by
  induction l generalizing elems1 c1 with
  | nil => simp [condition.setLoop] at h
  | cons a rest ih =>
    unfold condition.setLoop at h
    by_cases ht : a.Type_ = c.Type_
    · by_cases hs : condition.hasSameState a c = false
      · simp only [ht, hs, if_true, Option.some.injEq, Prod.mk.injEq] at h
        obtain ⟨h1, _⟩ := h
        subst h1
        refine ⟨by simp, _, List.mem_cons_self _ _, ?_⟩
        unfold condition.stampIfZero
        split <;> exact ⟨rfl, rfl, rfl, rfl⟩
      · have hs1 : condition.hasSameState a c = true := by simpa using hs
        simp only [ht, hs1, if_true, Bool.true_eq_false, if_false, Option.some.injEq,
          Prod.mk.injEq] at h
        obtain ⟨h1, _⟩ := h
        subst h1
        have hst := hasSameState_eq_true a c hs1
        exact ⟨rfl, a, List.mem_cons_self _ _, ht, hst.1, hst.2.1, hst.2.2⟩
    · simp only [ht, if_false] at h
      cases hr : condition.setLoop now c rest with
      | none => simp [hr] at h
      | some p =>
        obtain ⟨rest1, c2⟩ := p
        simp only [hr, Option.some.injEq, Prod.mk.injEq] at h
        obtain ⟨h1, _⟩ := h
        subst h1
        obtain ⟨hlen, e, hmem, hprops⟩ := ih rest1 c2 hr
        exact ⟨by simp [hlen], e, List.mem_cons_of_mem _ hmem, hprops⟩

/-- With no spare capacity behind the slice and no condition of the type of `c`
in it, the call leaves the cluster of the caller exactly as it was: the
condition is appended to a fresh array that only the copy refers to. -/
theorem RbacConditionsSet_absent_no_spare (now : Nat) (grow : Nat → Nat)
    (sortSlice : List condition.Condition → List condition.Condition)
    (inst : OVNDBCluster) (c : condition.Condition)
    (hspare : inst.Status.Conditions.spare = [])
    (habsent : ∀ e ∈ inst.Status.Conditions.elems, e.Type_ ≠ c.Type_) :
    RbacConditionsSet now grow sortSlice inst (some c) = inst := by
  have hnone := (setLoop_eq_none_iff now c inst.Status.Conditions.elems).2 habsent
  simp [RbacConditionsSet, condition.Conditions.Set, hnone, condition.goAppend, hspare]

/-- When a condition of the type of `c` is already in the list, the caller sees
a condition of that type with the status, reason and message of `c` after the
call (the sort rearranges the elements in place). -/
theorem RbacConditionsSet_present (now : Nat) (grow : Nat → Nat)
    (sortSlice : List condition.Condition → List condition.Condition)
    (hsort : ∀ l, (sortSlice l).Perm l)
    (inst : OVNDBCluster) (c : condition.Condition)
    (hpresent : ∃ e ∈ inst.Status.Conditions.elems, e.Type_ = c.Type_) :
    ∃ e ∈ (RbacConditionsSet now grow sortSlice inst (some c)).Status.Conditions.elems,
      e.Type_ = c.Type_ ∧ e.Status = c.Status ∧ e.Reason = c.Reason ∧
        e.Message = c.Message := by
  cases hl : condition.setLoop now c inst.Status.Conditions.elems with
  | none =>
    obtain ⟨e, he, ht⟩ := hpresent
    exact absurd ht ((setLoop_eq_none_iff now c _).1 hl e he)
  | some p =>
    obtain ⟨elems1, c1⟩ := p
    obtain ⟨hlen, e, hmem, hprops⟩ := setLoop_some_spec now c _ elems1 c1 hl
    have hslen : (sortSlice elems1).length = inst.Status.Conditions.elems.length := by
      rw [(hsort elems1).length_eq, hlen]
    refine ⟨e, ?_, hprops⟩
    simp only [RbacConditionsSet, condition.Conditions.Set, hl, Bool.false_eq_true, if_false]
    rw [← hslen, List.take_left]
    exact (hsort elems1).mem_iff.2 hmem

/-- C9 at its failing input: on a cluster whose condition list is empty,
RbacConditionsSet leaves the list of the caller empty, whatever condition is
passed, whatever the clock reads and however append allocates and the sort
rearranges. -/
theorem RbacConditionsSet_empty_list_unchanged (now : Nat) (grow : Nat → Nat)
    (sortSlice : List condition.Condition → List condition.Condition)
    (c : condition.Condition) :
    (RbacConditionsSet now grow sortSlice
        (sampleCluster "ovndbcluster-nb" "NB" (some 3) 3 "" "" []) (some c)).Status.Conditions.elems
      = [] := by
  simp [RbacConditionsSet, condition.Conditions.Set, condition.setLoop, condition.goAppend,
    sampleCluster]

/-! ## DBType validation -/

/-- C8 at its failing inputs: the DBType pattern admits "NBX" and "XSB", which
are neither of the two database types. -/
theorem validateDBType_admits_other_strings :
    validateDBType "NBX" = true ∧ "NBX" ≠ NBDBType ∧ "NBX" ≠ SBDBType ∧
    validateDBType "XSB" = true ∧ "XSB" ≠ NBDBType ∧ "XSB" ≠ SBDBType := by
  decide

/-! ## What the DBType pattern admits in general -/

theorem Compile_DBTypePattern :
    regexp.Compile DBTypePattern = some (regexp.Regexp.OpAlternate
      (regexp.Regexp.OpConcat regexp.Regexp.OpBeginText
        (regexp.Regexp.OpConcat (regexp.Regexp.OpLiteral 'N')
          (regexp.Regexp.OpConcat (regexp.Regexp.OpLiteral 'B') regexp.Regexp.OpEmptyMatch)))
      (regexp.Regexp.OpConcat (regexp.Regexp.OpLiteral 'S')
        (regexp.Regexp.OpConcat (regexp.Regexp.OpLiteral 'B')
          (regexp.Regexp.OpConcat regexp.Regexp.OpEndText regexp.Regexp.OpEmptyMatch)))) := by
  decide

theorem starts_with_NB_iff (text : List Char) :
    ['N', 'B'] <+: text ↔ text[0]? = some 'N' ∧ text[1]? = some 'B' := by
  cases text with
  | nil => simp
  | cons a rest =>
    cases rest with
    | nil => simp
    | cons b rest2 =>
      simp [List.cons_prefix_cons]
      constructor
      · rintro ⟨h1, h2⟩
        exact ⟨h1.symm, h2.symm⟩
      · rintro ⟨h1, h2⟩
        exact ⟨h1.symm, h2.symm⟩

theorem ends_with_SB_iff (text : List Char) :
    ['S', 'B'] <:+ text ↔
      ∃ i, text[i]? = some 'S' ∧ text[i + 1]? = some 'B' ∧ i + 2 = text.length := by
  constructor
  · rintro ⟨before, rfl⟩
    refine ⟨before.length, ?_, ?_, by simp⟩
    · rw [List.getElem?_append_right (Nat.le_refl _)]
      simp
    · rw [List.getElem?_append_right (Nat.le_succ _)]
      simp
  · rintro ⟨i, h1, h2, h3⟩
    induction text generalizing i with
    | nil => simp at h3
    | cons a rest ih =>
      cases i with
      | zero =>
        cases rest with
        | nil => simp at h3
        | cons b rest2 =>
          cases rest2 with
          | nil =>
            simp at h1 h2
            subst h1 h2
            exact List.suffix_refl _
          | cons d rest3 => simp at h3
      | succ j =>
        have hs : ['S', 'B'] <:+ rest := by
          apply ih j
          · simpa using h1
          · simpa using h2
          · simp at h3
            omega
        exact hs.trans (List.suffix_cons a rest)

theorem matchFrom_DBTypePattern (text : List Char) (i : Nat) :
    (regexp.matchFrom text (regexp.Regexp.OpAlternate
      (regexp.Regexp.OpConcat regexp.Regexp.OpBeginText
        (regexp.Regexp.OpConcat (regexp.Regexp.OpLiteral 'N')
          (regexp.Regexp.OpConcat (regexp.Regexp.OpLiteral 'B') regexp.Regexp.OpEmptyMatch)))
      (regexp.Regexp.OpConcat (regexp.Regexp.OpLiteral 'S')
        (regexp.Regexp.OpConcat (regexp.Regexp.OpLiteral 'B')
          (regexp.Regexp.OpConcat regexp.Regexp.OpEndText regexp.Regexp.OpEmptyMatch)))) i).isEmpty
      = false ↔
    (i = 0 ∧ text[0]? = some 'N' ∧ text[1]? = some 'B') ∨
      (text[i]? = some 'S' ∧ text[i + 1]? = some 'B' ∧ i + 2 = text.length) := by
  simp only [regexp.matchFrom, List.get?_eq_getElem?]
  by_cases h0 : i = 0
  · subst h0
    by_cases hN : text[0]? = some 'N' <;> by_cases hB : text[1]? = some 'B' <;>
      by_cases hS : text[0]? = some 'S' <;> by_cases hl : 2 = text.length <;>
      simp [hN, hB, hS, hl]
  · by_cases hS : text[i]? = some 'S' <;> by_cases hB : text[i + 1]? = some 'B' <;>
      by_cases hl : i + 2 = text.length <;> simp [h0, hB, hS, hl]

/-- The DBType pattern admits exactly the strings that start with "NB" or end
with "SB". -/
theorem validateDBType_iff (s : String) :
    validateDBType s = true ↔ (['N', 'B'] <+: s.data ∨ ['S', 'B'] <:+ s.data) := by
  rw [starts_with_NB_iff, ends_with_SB_iff]
  simp only [validateDBType, regexp.MatchString, Compile_DBTypePattern,
    regexp.Regexp.MatchString, decide_eq_true_eq, Option.some.injEq, List.any_eq_true,
    List.mem_range, Bool.not_eq_true', matchFrom_DBTypePattern]
  constructor
  · rintro ⟨i, _, h | h⟩
    · exact Or.inl h.2
    · exact Or.inr ⟨i, h⟩
  · rintro (h | ⟨i, h⟩)
    · exact ⟨0, by omega, Or.inl ⟨rfl, h⟩⟩
    · exact ⟨i, by omega, Or.inr h⟩

end OVN
